import Mathlib

/-!
Shallow embedding of `src/backend/server.py` (apartment-search service):
the cache-reconciliation loop of `scrape_and_cache_listings`, the scraping
orchestrator, `LeBonCoinScraper.parse_listing_element`, the cache query of
`get_cached_listings`, and the demo fallback `generate_sample_listings`,
together with the theorems settling the frozen claims about them.

Modelling conventions:
- Python `int` is `Int`; Python strings are `String`; timestamps are kept
  as opaque strings; nondeterministic values (`uuid.uuid4()`,
  `datetime.now()`, the `random.*` draws inside the scraper) are supplied
  through an explicit environment record.
- The MongoDB collection `db.listings` is a `List StoredListing` in
  insertion order; `find_one` is `List.find?`, `insert_one` appends, and
  `update_one` with a `$set` of the whole listing dict replaces the first
  matching record.
- A MongoDB equality query on `null` matches both a field that is `null`
  and a field that is absent, so an absent `external_id` key and an
  explicit `None` value are both modelled as `none`.
-/

/-- SearchCriteria (pydantic model, server.py lines 43-57). All fields are
optional; defaults mirror the pydantic declaration. -/
structure SearchCriteria where
  location : Option String := none
  property_type : Option String := some "appartement"
  rooms : Option Int := none
  min_surface : Option Int := none
  max_surface : Option Int := none
  min_price : Option Int := none
  max_price : Option Int := none
  furnished : Option Bool := none
  charges : Option String := some "excluded"
  bedrooms : Option Int := none
  floor : Option Int := none
  balcony : Option Bool := some false
  parking : Option Bool := some false
  pets : Option Bool := some false
  deriving Repr, DecidableEq

/-- Canonical listing record (pydantic `Listing`, server.py lines 59-78),
as the dicts stored in `db.listings`. `published_at` is kept as an opaque
string. A scraped dict that has no `external_id` key is modelled with
`external_id := none` (see the module comment on null/absent). -/
structure StoredListing where
  id : String
  title : String
  price : Int
  surface : Int
  rooms : Int
  bedrooms : Int := 0
  address : String
  description : String
  images : List String := []
  source : String
  published_at : String
  furnished : Bool := false
  charges : Int := 0
  floor : Int := 0
  balcony : Bool := false
  parking : Bool := false
  pets : Bool := false
  external_id : Option String := none
  url : Option String := none
  deriving Repr, DecidableEq

/-- The filter `{"external_id": eid, "source": src}` used by
`scrape_and_cache_listings` (server.py lines 490 and 498). `eid` is
`listing.get("external_id")`, hence `none` when the scraped dict carries no
such key; Mongo equality on null also matches records lacking the field,
which the `Option` model reflects. -/
def matchPair (src : String) (eid : Option String) (r : StoredListing) : Bool :=
  r.external_id == eid && r.source == src

/-- Model of `update_one(filter, {"$set": doc})`: rewrite the first record matching
`p` with the fields of `doc`. The query pins `source` and `external_id` to
the values carried by `doc` itself (null and absent conflated), so after
the `$set` of the full listing dict the matched record is exactly `doc`. -/
def replaceFirst (p : StoredListing → Bool) (doc : StoredListing) :
    List StoredListing → List StoredListing
  | [] => []
  | r :: rs => if p r then doc :: rs else r :: replaceFirst p doc rs

/-- One iteration of the caching loop of `scrape_and_cache_listings`
(server.py lines 488-501): `find_one` on (external_id, source),
`insert_one` when absent, `update_one` with `$set` of the whole listing
otherwise. -/
def reconcileListing (l : StoredListing) (store : List StoredListing) :
    List StoredListing :=
  match store.find? (matchPair l.source l.external_id) with
  | none => store ++ [l]
  | some _ => replaceFirst (matchPair l.source l.external_id) l store

/-- The caching loop of `scrape_and_cache_listings` with a failure oracle
for the store operations: `fails l` says the insert/update for `l` raises.
The whole loop sits inside the single `try/except` of the function
(server.py lines 481-506), so the first store failure ends processing: the
exception propagates out of the `for`, is logged, and the store stays as it
was at that point. -/
def cacheListings (fails : StoredListing → Bool) :
    List StoredListing → List StoredListing → List StoredListing
  | [], store => store
  | l :: rest, store =>
    if fails l then store else cacheListings fails rest (reconcileListing l store)

/-- Model of `scrape_source_with_error_handling` (server.py lines 326-335): the
scraper outcome for one source; a raised scrape is caught and becomes the
empty list. -/
def scrapeSourceWithErrorHandling (r : Except String (List StoredListing)) :
    List StoredListing :=
  match r with
  | .ok ls => ls
  | .error _ => []

/-- Model of `scrape_all_sources` (server.py lines 307-324): gather the per-source
outcomes in task order (each already wrapped by
`scrape_source_with_error_handling`, so the `isinstance(result, Exception)`
arm of the aggregation loop is unreachable) and extend `all_listings` with
each resulting list. -/
def scrapeAllSources (outcomes : List (Except String (List StoredListing))) :
    List StoredListing :=
  (outcomes.map scrapeSourceWithErrorHandling).foldl (fun acc r => acc ++ r) []

/-- Raw LeBonCoin listing element: the texts and attributes that
`parse_listing_element` reads (server.py lines 197-214), given that the
selector lookups succeed. -/
structure RawCandidate where
  title_text : String
  price_text : String
  location_text : String
  image_src : Option String := none
  link_href : Option String := none
  deriving Repr, DecidableEq

/-- Nondeterministic inputs of `parse_listing_element`: `uuid.uuid4()`,
`datetime.now()` and the `random.*` draws for the fields the demo scraper
does not really extract (server.py lines 217-233). -/
structure ScrapeEnv where
  freshId : String
  nowStamp : String
  surfaceR : Int
  roomsR : Int
  bedroomsR : Int
  chargesR : Int
  floorR : Int
  furnishedR : Bool
  balconyR : Bool
  parkingR : Bool
  petsR : Bool
  deriving Repr, DecidableEq

/-- Python `str.strip()`: drop whitespace from both ends (expressed on the
character list so that it evaluates by kernel reduction). -/
def stripStr (s : String) : String :=
  ⟨((s.data.dropWhile fun c => c.isWhitespace).reverse.dropWhile
      fun c => c.isWhitespace).reverse⟩

/-- The digit extraction of server.py line 206: the characters of the text
satisfying `str.isdigit`, joined back into a string (ASCII digits). -/
def extractDigits (s : String) : String :=
  ⟨s.data.filter Char.isDigit⟩

/-- Python `int` applied to a nonempty all-digit string. -/
def digitsVal (s : String) : Int :=
  Int.ofNat (s.foldl (fun n c => 10 * n + (c.toNat - 48)) 0)

/-- The price computation of server.py line 206: when the price text is
truthy, its extracted digits are fed to `int`; otherwise the price is `0`.
Here `none` is the `ValueError` that `int` raises on an empty digit string,
which happens when the text is nonempty but digit-free; the surrounding
`try/except` of `parse_listing_element` catches it and returns `None`. An
empty (falsy) price text takes the else-branch and yields price 0. -/
def parsePrice (price_text : String) : Option Int :=
  if price_text.isEmpty then some 0
  else
    let ds := extractDigits price_text
    if ds.isEmpty then none else some (digitsVal ds)

/-- Model of `LeBonCoinScraper.parse_listing_element` (server.py lines 193-239):
strip the extracted texts, convert the price, and build the listing dict,
or return `None` when anything in the `try` block raises (here: the
`ValueError` from the price conversion). The produced dict has no
`external_id` key. -/
def parseListingElement (env : ScrapeEnv) (c : RawCandidate) :
    Option StoredListing :=
  let title := stripStr c.title_text
  let price_text := stripStr c.price_text
  let location := stripStr c.location_text
  match parsePrice price_text with
  | none => none
  | some price =>
    some { id := env.freshId
           title := title
           price := price
           surface := env.surfaceR
           rooms := env.roomsR
           bedrooms := env.bedroomsR
           address := location
           description := title
           images := (match c.image_src with
             | some u => if u.isEmpty then [] else [u]
             | none => [])
           source := "LeBonCoin"
           published_at := env.nowStamp
           furnished := env.furnishedR
           charges := env.chargesR
           floor := env.floorR
           balcony := env.balconyR
           parking := env.parkingR
           pets := env.petsR
           external_id := none
           url := c.link_href }

/-- Python truthiness of an `Optional[int]`: `None` and `0` are falsy. -/
def intTruthy (o : Option Int) : Bool :=
  match o with
  | none => false
  | some n => n != 0

/-- Python truthiness of an `Optional[str]`: `None` and `""` are falsy. -/
def strTruthy (o : Option String) : Bool :=
  match o with
  | none => false
  | some s => !s.isEmpty

/-- Char-list prefix test. -/
def prefChars : List Char → List Char → Bool
  | [], _ => true
  | _ :: _, [] => false
  | a :: as, b :: bs => a == b && prefChars as bs

/-- Char-list substring test. -/
def subChars (p : List Char) : List Char → Bool
  | [] => p.isEmpty
  | b :: bs => prefChars p (b :: bs) || subChars p bs

/-- Lowercasing, character by character (Python `str.lower()`). -/
def lowerStr (s : String) : String :=
  ⟨s.data.map Char.toLower⟩

/-- Case-insensitive substring containment: the effect of the Mongo clause
`{"$regex": pat, "$options": "i"}` for a literal pattern (server.py line
444), and of the Python test `pat.lower() in s.lower()` (line 576). -/
def containsCI (pat s : String) : Bool :=
  subChars (lowerStr pat).data (lowerStr s).data

/-- The Mongo query dict assembled by `get_cached_listings` (server.py
lines 441-463), flattened into its optional clauses. -/
structure StoreQuery where
  address_pat : Option String := none
  price_gte : Option Int := none
  price_lte : Option Int := none
  rooms_gte : Option Int := none
  surface_gte : Option Int := none
  surface_lte : Option Int := none
  deriving Repr, DecidableEq

/-- Query construction of `get_cached_listings` (server.py lines 441-463).
Every `if criteria.x:` is Python truthiness, so a bound that is present but
`0` (or a present but empty location string) contributes no clause; the
nested price/surface guards keep the source's structure. -/
def buildQuery (c : SearchCriteria) : StoreQuery :=
  { address_pat := if strTruthy c.location then c.location else none
    price_gte := if intTruthy c.min_price || intTruthy c.max_price then
        (if intTruthy c.min_price then c.min_price else none) else none
    price_lte := if intTruthy c.min_price || intTruthy c.max_price then
        (if intTruthy c.max_price then c.max_price else none) else none
    rooms_gte := if intTruthy c.rooms then c.rooms else none
    surface_gte := if intTruthy c.min_surface || intTruthy c.max_surface then
        (if intTruthy c.min_surface then c.min_surface else none) else none
    surface_lte := if intTruthy c.min_surface || intTruthy c.max_surface then
        (if intTruthy c.max_surface then c.max_surface else none) else none }

/-- Satisfaction of the assembled query by a stored record: `$regex` as
literal case-insensitive substring, `$gte`/`$lte` inclusive. -/
def matchesQuery (q : StoreQuery) (l : StoredListing) : Bool :=
  (match q.address_pat with | none => true | some pat => containsCI pat l.address) &&
  (match q.price_gte with | none => true | some v => decide (v ≤ l.price)) &&
  (match q.price_lte with | none => true | some v => decide (l.price ≤ v)) &&
  (match q.rooms_gte with | none => true | some v => decide (v ≤ l.rooms)) &&
  (match q.surface_gte with | none => true | some v => decide (v ≤ l.surface)) &&
  (match q.surface_lte with | none => true | some v => decide (l.surface ≤ v))

/-- Model of `get_cached_listings` (server.py lines 437-477):
`db.listings.find(query).limit(50)` over the store in insertion order (the
`_id` pop and the `published_at` serialization do not change any modelled
field). -/
def getCachedListings (c : SearchCriteria) (store : List StoredListing) :
    List StoredListing :=
  (store.filter (fun l => matchesQuery (buildQuery c) l)).take 50

/-- The three built-in demo listings of `generate_sample_listings`
(server.py lines 510-571). The `uuid.uuid4()` parts of the ids and urls and
the `datetime.now()`-based timestamps are fixed opaque tokens; no claim
inspects them. -/
def sampleData : List StoredListing :=
  [ { id := "sample-uuid-1"
      title := "Appartement 2 pièces - Centre Paris"
      price := 1200
      surface := 45
      rooms := 2
      bedrooms := 1
      address := "75001 Paris, Île-de-France"
      description := "Magnifique appartement au cœur de Paris, proche des transports en commun. Entièrement rénové avec une cuisine équipée moderne."
      images := ["https://images.unsplash.com/photo-1522708323590-d24dbb6b0267?w=400"]
      source := "LeBonCoin"
      published_at := "now-minus-1d"
      furnished := true
      charges := 150
      floor := 3
      balcony := true
      parking := false
      pets := false
      url := some "https://leboncoin.fr/fake-sample-1" }
  , { id := "sample-uuid-2"
      title := "Studio meublé - Quartier Latin"
      price := 850
      surface := 25
      rooms := 1
      bedrooms := 0
      address := "75005 Paris, Île-de-France"
      description := "Studio lumineux dans le quartier historique du Quartier Latin. Parfait pour étudiant ou jeune professionnel."
      images := ["https://images.unsplash.com/photo-1502672260266-1c1ef2d93688?w=400"]
      source := "SeLoger"
      published_at := "now-minus-2d"
      furnished := true
      charges := 100
      floor := 2
      balcony := false
      parking := false
      pets := true
      url := some "https://seloger.com/fake-sample-2" }
  , { id := "sample-uuid-3"
      title := "Appartement 3 pièces avec terrasse"
      price := 1800
      surface := 70
      rooms := 3
      bedrooms := 2
      address := "92100 Boulogne-Billancourt, Île-de-France"
      description := "Spacieux appartement familial avec grande terrasse. Parking privé inclus. Quartier résidentiel calme."
      images := ["https://images.unsplash.com/photo-1560448204-e02f11c3d0e2?w=400"]
      source := "Foncia"
      published_at := "now-minus-0d"
      furnished := false
      charges := 200
      floor := 5
      balcony := true
      parking := true
      pets := false
      url := some "https://foncia.com/fake-sample-3" } ]

/-- The `continue`-chain filtering the samples in `generate_sample_listings`
(server.py lines 575-587): keep a sample iff no truthy criterion drops it.
Each guard uses Python truthiness, like the cache query. -/
def sampleKeep (c : SearchCriteria) (l : StoredListing) : Bool :=
  (!strTruthy c.location || containsCI (c.location.getD "") l.address) &&
  (!intTruthy c.min_price || decide (c.min_price.getD 0 ≤ l.price)) &&
  (!intTruthy c.max_price || decide (l.price ≤ c.max_price.getD 0)) &&
  (!intTruthy c.rooms || decide (c.rooms.getD 0 ≤ l.rooms)) &&
  (!intTruthy c.min_surface || decide (c.min_surface.getD 0 ≤ l.surface)) &&
  (!intTruthy c.max_surface || decide (l.surface ≤ c.max_surface.getD 0))

/-- Model of `generate_sample_listings` (server.py lines 508-591): filter the three
samples by the criteria; when the filter empties, fall back to all three
unfiltered
(`return filtered_listings if filtered_listings else sample_data`). -/
def generateSampleListings (c : SearchCriteria) : List StoredListing :=
  let filtered := sampleData.filter (sampleKeep c)
  if filtered.isEmpty then sampleData else filtered

/-- The cache-first decision of `search_apartments` (server.py lines
346-373): cached results with `cached: True` when the cache lookup is
nonempty (Python list truthiness), else the demo samples with
`cached: False`; the background scrape does not affect the response. -/
def searchApartments (c : SearchCriteria) (store : List StoredListing) :
    List StoredListing × Bool :=
  let cached := getCachedListings c store
  if cached.isEmpty then (generateSampleListings c, false) else (cached, true)

/-! ### List helpers shared by several claims -/

theorem replaceFirst_append_no_match (p : StoredListing → Bool) (doc : StoredListing)
    {pre : List StoredListing} (l : List StoredListing)
    (h : ∀ x ∈ pre, ¬ p x) :
    replaceFirst p doc (pre ++ l) = pre ++ replaceFirst p doc l := by
  induction pre with
  | nil => rfl
  | cons a as ih =>
    have ha : p a = false := by
      have := h a (List.mem_cons_self a as)
      simpa using this
    simp only [List.cons_append, replaceFirst, ha, Bool.false_eq_true, if_false,
      List.cons.injEq, true_and]
    exact ih fun x hx => h x (List.mem_cons_of_mem a hx)

theorem replaceFirst_countP (p : StoredListing → Bool) (doc : StoredListing)
    (hdoc : p doc = true) (l : List StoredListing) :
    (replaceFirst p doc l).countP p = l.countP p := by
  induction l with
  | nil => rfl
  | cons a as ih =>
    by_cases ha : p a = true
    · simp [replaceFirst, ha, List.countP_cons, hdoc]
    · simp [replaceFirst, ha, List.countP_cons, ih]

theorem replaceFirst_find? (p : StoredListing → Bool) (doc : StoredListing)
    (hdoc : p doc = true) {l : List StoredListing} {r : StoredListing}
    (hf : l.find? p = some r) :
    (replaceFirst p doc l).find? p = some doc := by
  induction l with
  | nil => simp at hf
  | cons a as ih =>
    by_cases ha : p a = true
    · simp [replaceFirst, ha, List.find?_cons_of_pos, hdoc]
    · rw [List.find?_cons_of_neg _ ha] at hf
      simp only [replaceFirst, ha, Bool.false_eq_true, if_false]
      rw [List.find?_cons_of_neg _ ha]
      exact ih hf

theorem countP_one_unique {α : Type} (p : α → Bool) {l : List α} {a : α}
    (hc : l.countP p = 1) (hf : l.find? p = some a) :
    ∀ x ∈ l, p x = true → x = a := by
  induction l with
  | nil => simp
  | cons b bs ih =>
    by_cases hb : p b = true
    · rw [List.find?_cons_of_pos _ hb] at hf
      have hab : b = a := by injection hf
      have hbs : bs.countP p = 0 := by
        have := List.countP_cons (p := p) b bs
        rw [hc, if_pos hb] at this
        omega
      intro x hx hpx
      rcases List.mem_cons.mp hx with h | h
      · rw [h, hab]
      · exact absurd hpx (List.countP_eq_zero.mp hbs x h)
    · rw [List.find?_cons_of_neg _ hb] at hf
      have hc' : bs.countP p = 1 := by
        have := List.countP_cons (p := p) b bs
        rw [hc, if_neg hb] at this
        omega
      intro x hx hpx
      rcases List.mem_cons.mp hx with h | h
      · exact absurd (h ▸ hpx) hb
      · exact ih hc' hf x h hpx

/-- C1: reconciling the same (source, external_id)-identified listing twice,
through the find-one / insert-or-update step of `scrape_and_cache_listings`,
never yields two stored records for that pair: starting from any store that
does not already hold duplicates for the pair (the invariant the reconciler
itself maintains), exactly one record for the pair remains and it carries
every field of the second reconciliation, in particular its price. -/
theorem reconcile_same_pair_twice_converges
    (store : List StoredListing) (l1 l2 : StoredListing) (src eid : String)
    (h1s : l1.source = src) (h1e : l1.external_id = some eid)
    (h2s : l2.source = src) (h2e : l2.external_id = some eid)
    (hcount : store.countP (matchPair src (some eid)) ≤ 1) :
    (reconcileListing l2 (reconcileListing l1 store)).countP (matchPair src (some eid)) = 1 ∧
    ∀ x ∈ reconcileListing l2 (reconcileListing l1 store),
      matchPair src (some eid) x = true → x = l2 := by
  set p := matchPair src (some eid) with hp
  have hp1 : p l1 = true := by simp [hp, matchPair, h1s, h1e]
  have hp2 : p l2 = true := by simp [hp, matchPair, h2s, h2e]
  have hpred1 : matchPair l1.source l1.external_id = p := by rw [h1s, h1e]
  have hpred2 : matchPair l2.source l2.external_id = p := by rw [h2s, h2e]
  cases hf : store.find? p with
  | none =>
    have hall : ∀ x ∈ store, ¬ p x := List.find?_eq_none.mp hf
    have hc0 : store.countP p = 0 := List.countP_eq_zero.mpr hall
    have step1 : reconcileListing l1 store = store ++ [l1] := by
      rw [reconcileListing, hpred1, hf]
    have hfind1 : (store ++ [l1]).find? p = some l1 := by
      rw [List.find?_append, hf, List.find?_cons_of_pos _ hp1]
      rfl
    have step2 : reconcileListing l2 (store ++ [l1]) = store ++ [l2] := by
      rw [reconcileListing, hpred2, hfind1,
        replaceFirst_append_no_match p l2 [l1] hall]
      simp [replaceFirst, hp1]
    rw [step1, step2]
    constructor
    · rw [List.countP_append, hc0, List.countP_cons, List.countP_nil, if_pos hp2]
    · intro x hx hpx
      rcases List.mem_append.mp hx with h | h
      · exact absurd hpx (hall x h)
      · simpa using h
  | some r =>
    have hcp : 0 < store.countP p :=
      List.countP_pos_iff.mpr ⟨r, List.mem_of_find?_eq_some hf, List.find?_some hf⟩
    have hc1 : store.countP p = 1 := le_antisymm hcount hcp
    have step1 : reconcileListing l1 store = replaceFirst p l1 store := by
      rw [reconcileListing, hpred1, hf]
    have hfind1 : (replaceFirst p l1 store).find? p = some l1 :=
      replaceFirst_find? p l1 hp1 hf
    have step2 : reconcileListing l2 (replaceFirst p l1 store)
        = replaceFirst p l2 (replaceFirst p l1 store) := by
      rw [reconcileListing, hpred2, hfind1]
    have hcfin : (replaceFirst p l2 (replaceFirst p l1 store)).countP p = 1 := by
      rw [replaceFirst_countP p l2 hp2, replaceFirst_countP p l1 hp1, hc1]
    have hffin : (replaceFirst p l2 (replaceFirst p l1 store)).find? p = some l2 :=
      replaceFirst_find? p l2 hp2 hfind1
    rw [step1, step2]
    exact ⟨hcfin, countP_one_unique p hcfin hffin⟩

/-- First reconciliation input of the C1 witness: pair ("X", "42"), price
1000. -/
def lC1a : StoredListing :=
  { id := "id-a", title := "T", price := 1000, surface := 40, rooms := 2,
    address := "Paris", description := "d", images := [], source := "X",
    published_at := "t0", external_id := some "42" }

/-- Second reconciliation input of the C1 witness: same pair, price 1200. -/
def lC1b : StoredListing :=
  { lC1a with id := "id-b", price := 1200, published_at := "t1" }

/-- C1 witness: the theorem applied to the empty store and the concrete
pair ("X", "42") reconciled at prices 1000 then 1200. -/
theorem reconcile_same_pair_twice_converges_witness :
    ([] : List StoredListing).countP (matchPair "X" (some "42")) ≤ 1 ∧
    ((reconcileListing lC1b (reconcileListing lC1a [])).countP (matchPair "X" (some "42")) = 1 ∧
     ∀ x ∈ reconcileListing lC1b (reconcileListing lC1a []),
       matchPair "X" (some "42") x = true → x = lC1b) :=
  ⟨by decide,
   reconcile_same_pair_twice_converges [] lC1a lC1b "X" "42" rfl rfl rfl rfl (by decide)⟩

/-- Stored record of the C2 evaluation: pair ("X", "42") with id
"orig-id". -/
def rC2old : StoredListing :=
  { id := "orig-id", title := "Old title", price := 1000, surface := 40,
    rooms := 2, address := "Paris", description := "d", images := [],
    source := "X", published_at := "t0", external_id := some "42" }

/-- Incoming listing of the C2 evaluation: same pair, freshly minted id
"new-id". -/
def lC2new : StoredListing :=
  { rC2old with id := "new-id", price := 1200, published_at := "t1" }

/-- C2 (evaluation at the failing input): the update path of
`scrape_and_cache_listings` runs `update_one` with `$set` of the whole
scraped dict, and that dict contains the freshly minted `id`, so the stored
record's `id` field changes from "orig-id" to "new-id" — the claimed
invariant that `id` never changes after creation is violated by the code. -/
theorem update_overwrites_stored_id :
    rC2old.id = "orig-id" ∧ lC2new.id = "new-id" ∧
    (reconcileListing lC2new [rC2old]).find? (matchPair "X" (some "42"))
      = some lC2new := by decide

/-- Stored record of the C5 evaluation: a LeBonCoin listing without
`external_id` (scraped dicts carry no such key). -/
def rC5first : StoredListing :=
  { id := "uuid-1", title := "Listing A", price := 900, surface := 30,
    rooms := 1, address := "Paris 11e", description := "a", images := [],
    source := "LeBonCoin", published_at := "t0", external_id := none }

/-- Incoming listing of the C5 evaluation: a different LeBonCoin listing,
also without `external_id`. -/
def lC5second : StoredListing :=
  { id := "uuid-2", title := "Listing B", price := 1150, surface := 55,
    rooms := 3, address := "Paris 12e", description := "b", images := [],
    source := "LeBonCoin", published_at := "t1", external_id := none }

/-- C5 (evaluation at the failing input): for a listing without
`external_id`, `find_one({"external_id": None, "source": ...})` matches any
stored record of the same source that also lacks the field (Mongo equality
on null matches absent fields), so the reconciler takes the update path and
overwrites the unrelated existing record instead of inserting: one record
remains where the claim demands two. -/
theorem absent_external_id_updates_existing :
    reconcileListing lC5second [rC5first] = [lC5second] ∧
    (reconcileListing lC5second [rC5first]).length = 1 := by decide

/-- Fixed nondeterministic environment for the parse evaluations. -/
def envC3 : ScrapeEnv :=
  { freshId := "uuid-c3", nowStamp := "t", surfaceR := 50, roomsR := 2,
    bedroomsR := 1, chargesR := 100, floorR := 1, furnishedR := false,
    balconyR := false, parkingR := false, petsR := false }

/-- Candidate whose price text is empty — hence contains no parsable
digit. -/
def candEmptyPrice : RawCandidate :=
  { title_text := "Bel appartement", price_text := "", location_text := "Paris" }

/-- C3 counterexample: a candidate whose price text contains no parsable
digit (it is empty) is NOT rejected — `parse_listing_element` takes the
falsy branch `... if price_text else 0` and produces a listing with the
sentinel price 0. -/
theorem empty_price_text_yields_zero_price_listing :
    candEmptyPrice.price_text = "" ∧
    (∀ ch ∈ candEmptyPrice.price_text.data, ch.isDigit = false) ∧
    (parseListingElement envC3 candEmptyPrice).map (fun l => l.price)
      = some 0 := by decide

/-- C3 amended: a candidate whose stripped price text is nonempty and
contains no digit characters is rejected: `int` raises `ValueError` on the
empty digit string,
the `try/except` of `parse_listing_element` catches it, and no listing is
produced (candidates with empty price text instead yield price 0, per the
counterexample). -/
theorem digitless_nonempty_price_rejected (env : ScrapeEnv) (c : RawCandidate)
    (hne : (stripStr c.price_text).isEmpty = false)
    (hnd : ∀ ch ∈ (stripStr c.price_text).data, ch.isDigit = false) :
    parseListingElement env c = none := by
  have hfilter : (stripStr c.price_text).data.filter Char.isDigit = [] :=
    List.filter_eq_nil_iff.mpr fun a ha => by simp [hnd a ha]
  have hds : extractDigits (stripStr c.price_text) = "" := by
    rw [extractDigits, hfilter]
  simp only [parseListingElement, parsePrice, hne, hds]
  rfl

/-- Candidate whose price text is nonempty but digit-free. -/
def candNoDigits : RawCandidate :=
  { title_text := "T", price_text := "Prix N/C", location_text := "Paris" }

/-- C3 witness: the amended theorem applied to the digit-free price text
"Prix N/C". -/
theorem digitless_nonempty_price_rejected_witness :
    (stripStr candNoDigits.price_text).isEmpty = false ∧
    (∀ ch ∈ (stripStr candNoDigits.price_text).data, ch.isDigit = false) ∧
    parseListingElement envC3 candNoDigits = none :=
  ⟨by decide, by decide,
   digitless_nonempty_price_rejected envC3 candNoDigits (by decide) (by decide)⟩

/-- First listing of the C6 batch; its store operation fails. -/
def lC6a : StoredListing :=
  { id := "c6-a", title := "A", price := 700, surface := 20, rooms := 1,
    address := "Lyon", description := "a", images := [], source := "S1",
    published_at := "t0", external_id := some "e1" }

/-- Second listing of the C6 batch; its store operation would succeed. -/
def lC6b : StoredListing :=
  { id := "c6-b", title := "B", price := 800, surface := 25, rooms := 2,
    address := "Lyon", description := "b", images := [], source := "S2",
    published_at := "t0", external_id := some "e2" }

/-- Failure oracle of the C6 run: only the store operation for `lC6a`
raises. -/
def failsC6 : StoredListing → Bool := fun l => l.id == "c6-a"

/-- C6 counterexample: the whole caching loop of
`scrape_and_cache_listings` sits inside one `try/except`, so when the store
operation for the first record raises, the batch aborts: the second record
is never reconciled (the store stays empty), although reconciling it alone
would have stored it — the store failure is not contained to the failing
record. -/
theorem store_failure_aborts_batch :
    cacheListings failsC6 [lC6a, lC6b] [] = [] ∧
    reconcileListing lC6b [] = [lC6b] ∧
    failsC6 lC6b = false := by decide

/-- C6 amended: a store failure while reconciling one listing aborts the
whole remaining batch: everything from the failing record onward
contributes nothing, and the store keeps exactly the records reconciled
before the failure (the exception is only caught by the `try/except`
around the whole loop, which logs and returns). -/
theorem store_failure_halts_remaining (fails : StoredListing → Bool)
    (pre post : List StoredListing) (l : StoredListing)
    (store : List StoredListing) (hl : fails l = true) :
    cacheListings fails (pre ++ l :: post) store = cacheListings fails pre store := by
  induction pre generalizing store with
  | nil => simp [cacheListings, hl]
  | cons a as ih =>
    by_cases ha : fails a = true
    · simp [cacheListings, ha]
    · simp only [List.cons_append, cacheListings, ha, Bool.false_eq_true, if_false]
      exact ih (reconcileListing a store)

/-- C6 witness: the amended theorem applied to the concrete aborting
batch. -/
theorem store_failure_halts_remaining_witness :
    failsC6 lC6a = true ∧
    cacheListings failsC6 ([] ++ lC6a :: [lC6b]) [] = cacheListings failsC6 [] [] :=
  ⟨by decide, store_failure_halts_remaining failsC6 [] [lC6b] lC6a [] (by decide)⟩

/-- Folding list append starting from `init` is `init` followed by the
concatenation. -/
theorem foldl_append_eq_flatten {α : Type} (L : List (List α)) (init : List α) :
    L.foldl (fun acc r => acc ++ r) init = init ++ L.flatten := by
  induction L generalizing init with
  | nil => simp
  | cons x xs ih =>
    simp only [List.foldl_cons, List.flatten_cons, ih, List.append_assoc]

/-- The aggregate of `scrape_all_sources` is the concatenation of the
per-source recovered lists, in task order. -/
theorem scrapeAllSources_eq_flatten
    (outcomes : List (Except String (List StoredListing))) :
    scrapeAllSources outcomes
      = (outcomes.map scrapeSourceWithErrorHandling).flatten := by
  rw [scrapeAllSources, foldl_append_eq_flatten]
  rfl

/-- C4: per-source failure isolation in the orchestrator. A failing
adapter contributes nothing to the aggregate (removing it leaves the
aggregate unchanged); a successful adapter's listings appear in the
aggregate exactly and in adapter order, between the contributions of the
sources before and after it; and when every source fails the aggregate is
the empty list, not an error. -/
theorem orchestrator_failure_isolation :
    (∀ (pre post : List (Except String (List StoredListing))) (e : String),
      scrapeAllSources (pre ++ Except.error e :: post)
        = scrapeAllSources (pre ++ post)) ∧
    (∀ (pre post : List (Except String (List StoredListing)))
       (ls : List StoredListing),
      scrapeAllSources (pre ++ Except.ok ls :: post)
        = scrapeAllSources pre ++ ls ++ scrapeAllSources post) ∧
    (∀ outcomes : List (Except String (List StoredListing)),
      (∀ o ∈ outcomes, ∃ msg, o = Except.error msg) →
      scrapeAllSources outcomes = []) := by
  refine ⟨?_, ?_, ?_⟩
  · intro pre post e
    simp [scrapeAllSources_eq_flatten, scrapeSourceWithErrorHandling]
  · intro pre post ls
    simp [scrapeAllSources_eq_flatten, scrapeSourceWithErrorHandling]
  · intro outcomes h
    rw [scrapeAllSources_eq_flatten]
    rw [List.flatten_eq_nil_iff]
    intro l hl
    rcases List.mem_map.mp hl with ⟨o, ho, rfl⟩
    rcases h o ho with ⟨msg, rfl⟩
    rfl

/-- Listings of the successful C4 source. -/
def okC4 : List StoredListing := [lC6a, lC6b, lC2new]

/-- C4 witness: a two-source run in which the first adapter raises and the
second yields three listings returns exactly those three listings, and a
run in which every source fails returns the empty aggregate. -/
theorem orchestrator_failure_isolation_witness :
    scrapeAllSources [Except.error "timeout", Except.ok okC4]
        = scrapeAllSources [Except.ok okC4] ∧
    scrapeAllSources ([] ++ Except.ok okC4 :: [])
        = scrapeAllSources [] ++ okC4 ++ scrapeAllSources [] ∧
    ((∀ o ∈ ([Except.error "timeout", Except.error "boom"] :
        List (Except String (List StoredListing))), ∃ msg, o = Except.error msg) ∧
      scrapeAllSources [Except.error "timeout", Except.error "boom"] = []) := by
  refine ⟨orchestrator_failure_isolation.1 [] [Except.ok okC4] "timeout", ?_, ?_, ?_⟩
  · exact orchestrator_failure_isolation.2.1 [] [] okC4
  · intro o ho
    rcases List.mem_cons.mp ho with h | h
    · exact ⟨"timeout", h⟩
    · rcases List.mem_cons.mp h with h2 | h2
      · exact ⟨"boom", h2⟩
      · exact absurd h2 (List.not_mem_nil o)
  · exact orchestrator_failure_isolation.2.2 _
      (by intro o ho
          rcases List.mem_cons.mp ho with h | h
          · exact ⟨"timeout", h⟩
          · rcases List.mem_cons.mp h with h2 | h2
            · exact ⟨"boom", h2⟩
            · exact absurd h2 (List.not_mem_nil o))

/-- Criteria of the C7 counterexample: `max_price` is set, to `0`. -/
def cC7 : SearchCriteria := { max_price := some 0 }

/-- Stored listing of the C7 counterexample, priced 100. -/
def lC7 : StoredListing :=
  { id := "l7", title := "L", price := 100, surface := 30, rooms := 1,
    address := "Nice", description := "d", images := [], source := "X",
    published_at := "t" }

/-- C7 counterexample: with `max_price` set to 0, Python truthiness makes
`if criteria.max_price:` skip the price clause entirely, so a listing
priced 100 is returned by the cache lookup even though 100 ≤ 0 fails — the
claimed inclusive upper bound is not enforced for a set-but-zero bound. -/
theorem zero_max_price_bound_ignored :
    cC7.max_price = some 0 ∧
    lC7 ∈ getCachedListings cC7 [lC7] ∧
    ¬(lC7.price ≤ 0) := by decide

/-- Pointwise characterization of query satisfaction: a record matches the
assembled query iff it satisfies every clause that is present. -/
theorem matchesQuery_spec (q : StoreQuery) (l : StoredListing) :
    matchesQuery q l = true ↔
      ((∀ pat, q.address_pat = some pat → containsCI pat l.address = true) ∧
       (∀ v, q.price_gte = some v → v ≤ l.price) ∧
       (∀ v, q.price_lte = some v → l.price ≤ v) ∧
       (∀ v, q.rooms_gte = some v → v ≤ l.rooms) ∧
       (∀ v, q.surface_gte = some v → v ≤ l.surface) ∧
       (∀ v, q.surface_lte = some v → l.surface ≤ v)) := by
  rw [matchesQuery]
  simp only [Bool.and_eq_true]
  constructor
  · rintro ⟨⟨⟨⟨⟨h1, h2⟩, h3⟩, h4⟩, h5⟩, h6⟩
    refine ⟨?_, ?_, ?_, ?_, ?_, ?_⟩
    · intro pat hp
      rw [hp] at h1
      simpa using h1
    · intro v hv
      rw [hv] at h2
      simpa using h2
    · intro v hv
      rw [hv] at h3
      simpa using h3
    · intro v hv
      rw [hv] at h4
      simpa using h4
    · intro v hv
      rw [hv] at h5
      simpa using h5
    · intro v hv
      rw [hv] at h6
      simpa using h6
  · rintro ⟨h1, h2, h3, h4, h5, h6⟩
    refine ⟨⟨⟨⟨⟨?_, ?_⟩, ?_⟩, ?_⟩, ?_⟩, ?_⟩
    · cases hq : q.address_pat with
      | none => rfl
      | some pat => simpa using h1 pat hq
    · cases hq : q.price_gte with
      | none => rfl
      | some v => simpa using h2 v hq
    · cases hq : q.price_lte with
      | none => rfl
      | some v => simpa using h3 v hq
    · cases hq : q.rooms_gte with
      | none => rfl
      | some v => simpa using h4 v hq
    · cases hq : q.surface_gte with
      | none => rfl
      | some v => simpa using h5 v hq
    · cases hq : q.surface_lte with
      | none => rfl
      | some v => simpa using h6 v hq

/-- Removing the rooms criterion before building the query yields the same
query with the rooms clause removed (no other clause reads `rooms`). -/
theorem buildQuery_rooms_none (c : SearchCriteria) :
    buildQuery { c with rooms := none } = { buildQuery c with rooms_gte := none } :=
  rfl

/-- C7 amended: every listing returned by the cache lookup respects the
inclusive price bounds for every bound that is set *and nonzero* (a bound
set to `0` is falsy in Python and contributes no clause, per the
counterexample). -/
theorem price_bounds_enforced_when_nonzero
    (c : SearchCriteria) (store : List StoredListing) (l : StoredListing)
    (hl : l ∈ getCachedListings c store) :
    (∀ m, c.min_price = some m → m ≠ 0 → m ≤ l.price) ∧
    (∀ m, c.max_price = some m → m ≠ 0 → l.price ≤ m) := by
  have hmem : l ∈ store.filter (fun x => matchesQuery (buildQuery c) x) :=
    List.mem_of_mem_take hl
  have hmatch : matchesQuery (buildQuery c) l = true :=
    (List.mem_filter.mp hmem).2
  have hspec := (matchesQuery_spec (buildQuery c) l).mp hmatch
  constructor
  · intro m hm hm0
    have htr : intTruthy (some m) = true := by
      show (m != 0) = true
      exact bne_iff_ne.mpr hm0
    have hq : (buildQuery c).price_gte = some m := by
      simp [buildQuery, hm, htr]
    exact hspec.2.1 m hq
  · intro m hm hm0
    have htr : intTruthy (some m) = true := by
      show (m != 0) = true
      exact bne_iff_ne.mpr hm0
    have hq : (buildQuery c).price_lte = some m := by
      simp [buildQuery, hm, htr]
    exact hspec.2.2.1 m hq

/-- Criteria of the C7 witness: price range [1000, 1500]. -/
def cW7 : SearchCriteria := { min_price := some 1000, max_price := some 1500 }

/-- Stored listing of the C7 witness, priced 1200. -/
def lW7 : StoredListing :=
  { id := "w7", title := "W", price := 1200, surface := 45, rooms := 2,
    address := "Paris", description := "d", images := [], source := "X",
    published_at := "t" }

/-- C7 witness: the amended theorem applied to the range [1000, 1500] and a
returned listing priced 1200. -/
theorem price_bounds_enforced_when_nonzero_witness :
    lW7 ∈ getCachedListings cW7 [lW7] ∧
    ((∀ m, cW7.min_price = some m → m ≠ 0 → m ≤ lW7.price) ∧
     (∀ m, cW7.max_price = some m → m ≠ 0 → lW7.price ≤ m)) :=
  ⟨by decide, price_bounds_enforced_when_nonzero cW7 [lW7] lW7 (by decide)⟩

/-- C8: the rooms criterion is a minimum threshold, not an equality: every
listing the cache lookup returns has at least `r` rooms (using the record
invariant that stored listings have at least one room — every record the
code inserts does, covering the degenerate falsy case `r = 0` in which no
clause is emitted at all), and a stored listing with strictly more than `r`
rooms that matches the criteria with the rooms clause removed is returned,
provided the matches fit under the 50-result ceiling. -/
theorem rooms_threshold_filter
    (c : SearchCriteria) (store : List StoredListing) (r : Int)
    (hr : c.rooms = some r) :
    (∀ l ∈ getCachedListings c store, (∀ x ∈ store, 1 ≤ x.rooms) → r ≤ l.rooms) ∧
    (∀ l ∈ store, r < l.rooms →
      matchesQuery (buildQuery { c with rooms := none }) l = true →
      store.countP (fun x => matchesQuery (buildQuery c) x) ≤ 50 →
      l ∈ getCachedListings c store) := by
  constructor
  · intro l hl hst
    have hmem : l ∈ store.filter (fun x => matchesQuery (buildQuery c) x) :=
      List.mem_of_mem_take hl
    have hlstore : l ∈ store := (List.mem_filter.mp hmem).1
    have hmatch : matchesQuery (buildQuery c) l = true :=
      (List.mem_filter.mp hmem).2
    by_cases hr0 : r = 0
    · have := hst l hlstore
      omega
    · have htr : intTruthy (some r) = true := by
        show (r != 0) = true
        exact bne_iff_ne.mpr hr0
      have hq : (buildQuery c).rooms_gte = some r := by
        simp [buildQuery, hr, htr]
      exact ((matchesQuery_spec (buildQuery c) l).mp hmatch).2.2.2.1 r hq
  · intro l hls hlt hother hcount
    rw [buildQuery_rooms_none] at hother
    have hoth := (matchesQuery_spec _ l).mp hother
    have hrooms : ∀ v, (buildQuery c).rooms_gte = some v → v ≤ l.rooms := by
      intro v hv
      by_cases hr0 : r = 0
      · have hfalse : intTruthy (some (0 : Int)) = false := rfl
        have hq : (buildQuery c).rooms_gte = none := by
          simp [buildQuery, hr, hr0, hfalse]
        rw [hq] at hv
        exact Option.noConfusion hv
      · have htr : intTruthy (some r) = true := by
          show (r != 0) = true
          exact bne_iff_ne.mpr hr0
        have hq : (buildQuery c).rooms_gte = some r := by
          simp [buildQuery, hr, htr]
        rw [hq] at hv
        have hvr : r = v := by injection hv
        rw [← hvr]
        exact le_of_lt hlt
    have hfull : matchesQuery (buildQuery c) l = true :=
      (matchesQuery_spec (buildQuery c) l).mpr
        ⟨hoth.1, hoth.2.1, hoth.2.2.1, hrooms, hoth.2.2.2.2.1, hoth.2.2.2.2.2⟩
    have hlen : (store.filter (fun x => matchesQuery (buildQuery c) x)).length ≤ 50 := by
      rw [← List.countP_eq_length_filter]
      exact hcount
    rw [getCachedListings, List.take_of_length_le hlen]
    exact List.mem_filter.mpr ⟨hls, hfull⟩

/-- Criteria of the C8 witness: at least two rooms. -/
def cW8 : SearchCriteria := { rooms := some 2 }

/-- Stored listing of the C8 witness: three rooms, more than asked. -/
def lW8 : StoredListing :=
  { id := "w8", title := "W8", price := 1300, surface := 60, rooms := 3,
    address := "Paris", description := "d", images := [], source := "X",
    published_at := "t" }

/-- C8 witness: the theorem applied to `rooms = 2` and a stored three-room
listing, which is returned and satisfies the threshold. -/
theorem rooms_threshold_filter_witness :
    cW8.rooms = some 2 ∧ lW8 ∈ getCachedListings cW8 [lW8] ∧ 2 ≤ lW8.rooms := by
  have h := rooms_threshold_filter cW8 [lW8] 2 rfl
  have hmem : lW8 ∈ getCachedListings cW8 [lW8] :=
    h.2 lW8 (by decide) (by decide) (by decide) (by decide)
  exact ⟨rfl, hmem, h.1 lW8 hmem (by decide)⟩

/-- C9: whatever the store contains and whatever the criteria — including
empty criteria whose query matches everything — the cache lookup returns at
most 50 listings, the `limit(50)` ceiling of `get_cached_listings`. -/
theorem cache_lookup_bounded_by_fifty
    (c : SearchCriteria) (store : List StoredListing) :
    (getCachedListings c store).length ≤ 50 := by
  rw [getCachedListings]
  exact List.length_take_le 50 _

/-- Criteria of the C10 cache-miss evaluation: minimum price 5000, which
every demo sample violates. -/
def cC10 : SearchCriteria := { min_price := some 5000 }

/-- C10: the demo placeholder data is never empty and is not guaranteed to
satisfy the criteria — `generate_sample_listings` returns the matching
subset of its three built-in samples when that subset is nonempty and
otherwise all three unfiltered; concretely, the cache-miss response for
`min_price = 5000` contains all three samples, each priced under 5000. -/
theorem sample_listings_fallback :
    (∀ c : SearchCriteria, generateSampleListings c ≠ []) ∧
    (∀ c : SearchCriteria, sampleData.filter (sampleKeep c) ≠ [] →
      generateSampleListings c = sampleData.filter (sampleKeep c)) ∧
    (∀ c : SearchCriteria, sampleData.filter (sampleKeep c) = [] →
      generateSampleListings c = sampleData) ∧
    (getCachedListings cC10 [] = [] ∧
     searchApartments cC10 [] = (sampleData, false) ∧
     ∀ l ∈ sampleData, l.price < 5000) := by
  refine ⟨?_, ?_, ?_, by decide, by decide, by decide⟩
  · intro c
    rw [generateSampleListings]
    by_cases h : (sampleData.filter (sampleKeep c)).isEmpty = true
    · rw [if_pos h]
      decide
    · rw [if_neg h]
      intro heq
      rw [heq] at h
      exact h rfl
  · intro c hne
    rw [generateSampleListings]
    have h : (sampleData.filter (sampleKeep c)).isEmpty = false := by
      cases hfe : (sampleData.filter (sampleKeep c)).isEmpty
      · rfl
      · exact absurd (List.isEmpty_iff.mp hfe) hne
    rw [h]
    rfl
  · intro c he
    rw [generateSampleListings, he]
    rfl

/-- C10 witness: the theorem's filtered branch applied to the empty
criteria, whose filter keeps all three samples. -/
theorem sample_listings_fallback_witness :
    sampleData.filter (sampleKeep {}) ≠ [] ∧
    generateSampleListings {} = sampleData.filter (sampleKeep {}) :=
  ⟨by decide, sample_listings_fallback.2.1 {} (by decide)⟩
